import Mathlib

/-!
Verification of the frame inclusion / playback control subsystem of
PlanetarySystemStacker, file `frame_selector.py`.

The Python module implements a GUI widget (`FrameSelectorWidget`) that keeps a
working copy `index_included` of the externally owned `frames.index_included`
list, lets the user flip entries via `use_triggered` / `not_use_triggered`,
commits the edits in `done`, and discards them in `reject`.  A `FramePlayer`
object advances `frame_index` in a polling loop.

Every definition below is a direct translation of the corresponding Python
code; machine state that the GUI toolkit owns (list-widget items, colors,
pixmaps) is dropped, and the observable effects (index lists, flag arrays,
emitted display requests) are kept.
-/

namespace FrameSelector

/-- The externally owned `Frames` collaborator, as far as this module reads
and writes it: `number_original` (total frame count), `number` (count of
frames currently marked included) and the committed inclusion list
`index_included`. -/
structure Frames where
  number_original : Nat
  number : Nat
  index_included : List Bool
deriving DecidableEq

/-- The Python expression `sum(self.frames.index_included)`: the count of
`true` entries of an inclusion list. -/
def countIncluded (l : List Bool) : Nat :=
  l.count true

/-! Commit operation (`FrameSelectorWidget.done`).

The Python loop is

    indices_included = []
    indices_excluded = []
    for index in range(self.frames.number_original):
        if self.index_included[index] and not self.frames.index_included[index]:
            indices_included.append(index)
            self.frames.index_included[index] = True
        elif not self.index_included[index] and self.frames.index_included[index]:
            indices_excluded.append(index)
            self.frames.index_included[index] = False

The accumulator carries the two index lists and the (mutated) committed
list; `working` is the working copy `self.index_included` of the widget.
`List.getD` stands for the Python subscript; within the intended length
hypotheses every access is in range, so the default is never consulted. -/

/-- One iteration of the `done` loop at position `index`. -/
def doneStep (working : List Bool) (acc : List Nat × List Nat × List Bool)
    (index : Nat) : List Nat × List Nat × List Bool :=
  let inc := acc.1
  let exc := acc.2.1
  let committed := acc.2.2
  if working.getD index false = true ∧ committed.getD index false = false then
    (inc ++ [index], exc, committed.set index true)
  else if working.getD index false = false ∧ committed.getD index false = true then
    (inc, exc ++ [index], committed.set index false)
  else
    acc

/-- The diff-and-apply loop of `FrameSelectorWidget.done`: returns
(`indices_included`, `indices_excluded`, updated committed list). -/
def doneLoop (number_original : Nat) (working committed : List Bool) :
    List Nat × List Nat × List Bool :=
  (List.range number_original).foldl (doneStep working) ([], [], committed)

/-- The complete effect of `FrameSelectorWidget.done` on the data model:
the two reported index lists together with the updated `Frames` object.
Note that `done` writes `frames.index_included` element-wise but never
touches `frames.number`. -/
def done (working : List Bool) (fs : Frames) : List Nat × List Nat × Frames :=
  let r := doneLoop fs.number_original working fs.index_included
  (r.1, r.2.1, { fs with index_included := r.2.2 })

/-- Predicate for a false→true flip at `i` (newly included). -/
def flippedIn (working committed : List Bool) (i : Nat) : Bool :=
  working.getD i false && !(committed.getD i false)

/-- Predicate for a true→false flip at `i` (newly excluded). -/
def flippedOut (working committed : List Bool) (i : Nat) : Bool :=
  !(working.getD i false) && committed.getD i false


/-! Playback controller (`FramePlayer`). -/

/-- State manipulated by `FramePlayer.play`: the frame cursor
`frame_index` of the widget, the stop flag `run_player`, the 1-based
slider position, and the list of frame indices for which a display was
requested through `set_photo_signal.emit`. -/
structure PlayerState where
  frame_index : Nat
  run_player : Bool
  slider_value : Nat
  displays : List Nat
deriving DecidableEq

/-- Body of the `while` loop of `FramePlayer.play` for one iteration: when
the viewer is busy loading an image, nothing happens; otherwise the cursor
advances by one, the slider follows, and a display of the new index is
requested. -/
def playStep (busy : Bool) (s : PlayerState) : PlayerState :=
  if busy then s
  else
    { s with
      frame_index := s.frame_index + 1
      slider_value := s.frame_index + 2
      displays := s.displays ++ [s.frame_index + 1] }

/-- Polling loop of `FramePlayer.play`.  `busy t` is the value of
`image_loading_busy` observed in iteration `t`; `run t` is the value of
`run_player` observed at the loop condition check of iteration `t` (the
GUI thread may set it to `false` at any time via
`pushbutton_stop_clicked`).  `fuel` bounds how many iterations are
unrolled; the theorems below hold for every sufficiently large fuel, so
the bound is not a behavioural restriction. -/
def playLoop (number_original : Nat) (busy run : Nat → Bool) :
    Nat → Nat → PlayerState → PlayerState
  | 0, _, s => s
  | fuel + 1, t, s =>
    if s.frame_index < number_original - 1 ∧ run t = true then
      playLoop number_original busy run fuel (t + 1) (playStep (busy t) s)
    else s

/-- Method `FramePlayer.play`: sets `run_player`, runs the polling loop
from iteration 0, and clears `run_player` on exit. -/
def play (number_original : Nat) (busy run : Nat → Bool) (fuel : Nat)
    (s : PlayerState) : PlayerState :=
  let s1 := { s with run_player := true }
  let s2 := playLoop number_original busy run fuel 0 s1
  { s2 with run_player := false }

/-- Schedule on which the image loader is never busy. -/
def neverBusy : Nat → Bool :=
  fun _ => false

/-- Schedule on which the stop button is never pressed. -/
def alwaysRun : Nat → Bool :=
  fun _ => true

/-- Schedule on which the stop click lands before the check of
iteration 2. -/
def stopAtTwo : Nat → Bool :=
  fun t => decide (t < 2)

/-! Widget-level state and the user-facing operations of
`FrameSelectorWidget`. -/

/-- Python exceptions raised by the operations modelled here:
`indexError` for an out-of-range subscript such as
`self.indices_selected[0]` on an empty list, `attributeError` for reading
an instance attribute that was never assigned. -/
inductive PyError
  | indexError
  | attributeError
deriving DecidableEq

/-- The mutable state of `FrameSelectorWidget` that the claims inspect:
`parent_gui_present` records whether the `parent_gui` constructor argument
was not `None`; `frames` is the shared external `Frames` object;
`index_included` is the working copy created by
`frames.index_included.copy()`; `indices_selected` holds the rows of the
currently selected list items (`items_selected` in Python is the parallel
list of item objects, and its truthiness test coincides with
`indices_selected` being nonempty in every modelled operation); `closed`
records whether `self.close()` has run. -/
structure FrameSelectorWidget where
  parent_gui_present : Bool
  frames : Frames
  index_included : List Bool
  indices_selected : List Nat
  frame_index : Nat
  closed : Bool
deriving DecidableEq

/-- Constructor `FrameSelectorWidget.__init__`, restricted to the modelled
fields: stores the collaborators, takes a working copy of the inclusion
flags, clears the selection (Python sets `items_selected` and
`indices_selected` to `None`, which behaves exactly like an empty
selection in every truthiness test of this file), and starts at frame
index 0. -/
def initWidget (parent_gui_present : Bool) (fs : Frames) : FrameSelectorWidget :=
  { parent_gui_present := parent_gui_present
    frames := fs
    index_included := fs.index_included
    indices_selected := []
    frame_index := 0
    closed := false }

/-- Element-wise assignment loop shared by `use_triggered` and
`not_use_triggered`: `self.index_included[index_selected] = b` for each
selected row, in list order. -/
def setAll (ixs : List Nat) (b : Bool) (l : List Bool) : List Bool :=
  ixs.foldl (fun acc i => acc.set i b) l

/-- Method `FrameSelectorWidget.use_triggered`: when the selection is
nonempty, mark every selected row as included.  The item text, item color
and redisplay updates are GUI effects outside the data model. -/
def use_triggered (w : FrameSelectorWidget) : FrameSelectorWidget :=
  if w.indices_selected.isEmpty then w
  else { w with index_included := setAll w.indices_selected true w.index_included }

/-- Method `FrameSelectorWidget.not_use_triggered`: when the selection is
nonempty, mark every selected row as excluded. -/
def not_use_triggered (w : FrameSelectorWidget) : FrameSelectorWidget :=
  if w.indices_selected.isEmpty then w
  else { w with index_included := setAll w.indices_selected false w.index_included }

/-- Method `FrameSelectorWidget.select_items`: stores the selected items
and their row numbers, then reads `self.indices_selected[0]` into
`frame_index` (and moves the slider accordingly).  The subscript raises
`IndexError` on an empty selection; the assignment to `indices_selected`
has already happened at that point, so the state paired with the error
keeps the new (empty) selection and the old `frame_index`. -/
def select_items (rows : List Nat) (w : FrameSelectorWidget) :
    Option PyError × FrameSelectorWidget :=
  match rows with
  | [] => (some .indexError, { w with indices_selected := rows })
  | r :: _ => (none, { w with indices_selected := rows, frame_index := r })

/-- Method `FrameSelectorWidget.slider_frames_changed`: `frame_index`
becomes the slider value minus one (slider positions are 1-based), the
list row at that index becomes the current single selection via
`setCurrentRow` followed by `select_items`, and the frame is
redisplayed. -/
def slider_frames_changed (value : Nat) (w : FrameSelectorWidget) :
    FrameSelectorWidget :=
  { w with frame_index := value - 1, indices_selected := [value - 1] }

/-- Method `FrameSelectorWidget.pushbutton_stop_clicked` acting on the
player state: clears the stop flag that the playing loop polls. -/
def pushbutton_stop_clicked (s : PlayerState) : PlayerState :=
  { s with run_player := false }

/-- Attribute names that are ever assigned on a `FrameSelectorWidget`
instance: every target of a `self.X = ...` statement in
`frame_selector.py`, plus the child widgets that the generated
`Ui_frame_selector.setupUi` installs and this file uses.  The name
`signal_payload` is not among them. -/
def assignedAttributes : List String :=
  ["parent_gui", "configuration", "stacked_image_log_file", "signal_finished",
   "frames", "index_included", "items_selected", "indices_selected",
   "background_included", "foreground_included", "background_excluded",
   "foreground_excluded", "frame_index", "frame_selector", "run_player",
   "player_thread", "frame_player",
   "listWidget", "addButton", "removeButton", "slider_frames",
   "pushButton_play", "pushButton_stop", "buttonBox", "gridLayout"]

/-- Name of the attribute read by `reject` when a parent GUI is present. -/
def signalPayloadName : String :=
  "signal_payload"

/-- Method `FrameSelectorWidget.reject`: when a parent GUI is present, the
method evaluates `self.signal_payload` to build the emitted completion
signal; reading an attribute that was never assigned raises
`AttributeError`, in which case `self.close()` is not reached and the
state is returned unchanged.  Without a parent GUI the window is simply
closed. -/
def reject (w : FrameSelectorWidget) : Option PyError × FrameSelectorWidget :=
  if w.parent_gui_present = true then
    if assignedAttributes.contains signalPayloadName then
      (none, { w with closed := true })
    else
      (some .attributeError, w)
  else
    (none, { w with closed := true })

/-- One user action inside an editing session, as dispatched by the GUI:
a click on the add button (`use`), a click on the remove button
(`notUse`), a list selection carrying the selected rows, or a slider
move carrying the new slider value. -/
inductive SessionOp
  | use
  | notUse
  | select (rows : List Nat)
  | slider (value : Nat)
deriving DecidableEq

/-- Dispatch of one session action on the widget.  For `select` the widget
keeps the state reached when `select_items` returns or raises. -/
def applyOp (w : FrameSelectorWidget) (op : SessionOp) : FrameSelectorWidget :=
  match op with
  | .use => use_triggered w
  | .notUse => not_use_triggered w
  | .select rows => (select_items rows w).2
  | .slider value => slider_frames_changed value w

/-- Replay of a whole sequence of session actions. -/
def applyOps (ops : List SessionOp) (w : FrameSelectorWidget) :
    FrameSelectorWidget :=
  ops.foldl applyOp w

/-- Session actions realising one spec-level batch step: select the given
rows, then include (`b = true`) or exclude (`b = false`) them. -/
def batchOps (steps : List (Bool × List Nat)) : List SessionOp :=
  steps.flatMap fun step =>
    [SessionOp.select step.2, if step.1 then SessionOp.use else SessionOp.notUse]

/-- Modelled from the spec (testable property 1): one replayed batch step
sets every index of the step selection to the step flag, later steps
seeing earlier updates. -/
def replaySpecStep (l : List Bool) (step : Bool × List Nat) : List Bool :=
  step.2.foldl (fun acc i => acc.set i step.1) l

/-- Modelled from the spec (testable property 1): the expected flag array
computed by replaying the batch operations in order. -/
def replaySpec (steps : List (Bool × List Nat)) (l : List Bool) : List Bool :=
  steps.foldl replaySpecStep l

/-! Concrete fixtures used by counterexamples and witnesses. -/

/-- Five frames, all included. -/
def framesFive : Frames :=
  ⟨5, 5, [true, true, true, true, true]⟩

/-- One frame, included. -/
def framesOne : Frames :=
  ⟨1, 1, [true]⟩

/-- Two frames, the first included, used for the commit witness. -/
def framesW : Frames :=
  ⟨2, 1, [true, false]⟩

/-- Working copy for the commit witness: both flags flipped. -/
def workingW : List Bool :=
  [false, true]

/-- Player state at the first frame, before playback. -/
def playerStart : PlayerState :=
  ⟨0, false, 1, []⟩

/-- Batch steps for the replay witness: include rows 0 and 2, then
exclude row 2. -/
def stepsW : List (Bool × List Nat) :=
  [(true, [0, 2]), (false, [2])]

/-- Widget with a live selection, used in witnesses. -/
def widgetSel : FrameSelectorWidget :=
  { initWidget false framesFive with indices_selected := [1, 3] }

/-! Shared lemmas. -/

/-- Unfolding lemma for `doneStep` on an explicit triple. -/
theorem doneStep_eq (working : List Bool) (inc exc : List Nat) (c : List Bool)
    (i : Nat) :
    doneStep working (inc, exc, c) i =
      if working.getD i false = true ∧ c.getD i false = false then
        (inc ++ [i], exc, c.set i true)
      else if working.getD i false = false ∧ c.getD i false = true then
        (inc, exc ++ [i], c.set i false)
      else (inc, exc, c) := rfl

/-- Reading a just-written position of a list. -/
theorem getD_set_self (l : List Bool) (i : Nat) (b : Bool) (h : i < l.length) :
    (l.set i b).getD i false = b := by
  rw [List.getD_eq_getElem (l.set i b) false (by simpa using h)]
  exact List.getElem_set_self _

/-- Reading a position other than the one just written. -/
theorem getD_set_ne (l : List Bool) (i j : Nat) (b : Bool) (h : i ≠ j) :
    (l.set i b).getD j false = l.getD j false := by
  by_cases hj : j < l.length
  · rw [List.getD_eq_getElem (l.set i b) false (by simpa using hj),
      List.getD_eq_getElem l false hj]
    exact List.getElem_set_ne h _
  · rw [List.getD_eq_default (l.set i b) false (by simpa using Nat.le_of_not_lt hj),
      List.getD_eq_default l false (Nat.le_of_not_lt hj)]

/-- A `true` read through `getD` is always in range. -/
theorem getD_true_lt_length (l : List Bool) (i : Nat) (h : l.getD i false = true) :
    i < l.length := by
  by_contra hlt
  rw [List.getD_eq_default l false (Nat.le_of_not_lt hlt)] at h
  exact Bool.false_ne_true h

/-- Main invariant of the `done` loop after processing indices `0 .. n-1`:
the two index lists are the filters of `List.range n` by the two flip
predicates, and the committed list now agrees with `working` on `[0, n)`
and with its original value from `n` on. -/
theorem doneLoop_invariant (working committed : List Bool)
    (hlen : working.length = committed.length) (n : Nat) :
    (doneLoop n working committed).1 =
        (List.range n).filter (flippedIn working committed) ∧
    (doneLoop n working committed).2.1 =
        (List.range n).filter (flippedOut working committed) ∧
    (doneLoop n working committed).2.2.length = committed.length ∧
    (∀ i, n ≤ i → (doneLoop n working committed).2.2.getD i false =
        committed.getD i false) ∧
    (∀ i, i < n → (doneLoop n working committed).2.2.getD i false =
        working.getD i false) := by
  induction n with
  | zero => simp [doneLoop]
  | succ n ih =>
    rcases hD : doneLoop n working committed with ⟨inc, exc, c⟩
    rw [hD] at ih
    obtain ⟨h1, h2, h3, h4, h5⟩ := ih
    have hstep : doneLoop (n + 1) working committed =
        doneStep working (inc, exc, c) n := by
      simp only [doneLoop] at hD ⊢
      rw [List.range_succ, List.foldl_append, hD]
      rfl
    have hcn : c.getD n false = committed.getD n false := h4 n le_rfl
    rcases hw : working.getD n false <;> rcases hc : committed.getD n false
    · -- both false: no flip
      have hin : flippedIn working committed n = false := by
        simp only [flippedIn, hw, Bool.false_and]
      have hout : flippedOut working committed n = false := by
        simp only [flippedOut, hc, Bool.and_false]
      have hcond1 : ¬(working.getD n false = true ∧ c.getD n false = false) := by
        rintro ⟨h, _⟩
        rw [hw] at h
        exact Bool.false_ne_true h
      have hcond2 : ¬(working.getD n false = false ∧ c.getD n false = true) := by
        rintro ⟨_, h⟩
        rw [hcn, hc] at h
        exact Bool.false_ne_true h
      rw [hstep, doneStep_eq, if_neg hcond1, if_neg hcond2]
      refine ⟨?_, ?_, h3, ?_, ?_⟩
      · rw [List.range_succ, List.filter_append, ← h1]
        simp [List.filter_cons, hin]
      · rw [List.range_succ, List.filter_append, ← h2]
        simp [List.filter_cons, hout]
      · intro i hi
        exact h4 i (Nat.le_of_succ_le hi)
      · intro i hi
        rcases Nat.lt_succ_iff_lt_or_eq.mp hi with hi' | rfl
        · exact h5 i hi'
        · rw [hcn, hc, hw]
    · -- working false, committed true: flippedOut
      have hin : flippedIn working committed n = false := by
        simp only [flippedIn, hw, Bool.false_and]
      have hout : flippedOut working committed n = true := by
        simp only [flippedOut, hw, hc, Bool.not_false, Bool.true_and]
      have hnlt : n < committed.length := getD_true_lt_length committed n hc
      have hclt : n < c.length := by rw [h3]; exact hnlt
      have hcond1 : ¬(working.getD n false = true ∧ c.getD n false = false) := by
        rintro ⟨h, _⟩
        rw [hw] at h
        exact Bool.false_ne_true h
      have hcond2 : working.getD n false = false ∧ c.getD n false = true := by
        exact ⟨hw, by rw [hcn, hc]⟩
      rw [hstep, doneStep_eq, if_neg hcond1, if_pos hcond2]
      refine ⟨?_, ?_, by simpa using h3, ?_, ?_⟩
      · rw [List.range_succ, List.filter_append, ← h1]
        simp [List.filter_cons, hin]
      · rw [List.range_succ, List.filter_append, ← h2]
        simp [List.filter_cons, hout]
      · intro i hi
        rw [getD_set_ne c n i false (Nat.ne_of_lt hi)]
        exact h4 i (Nat.le_of_succ_le hi)
      · intro i hi
        rcases Nat.lt_succ_iff_lt_or_eq.mp hi with hi' | rfl
        · rw [getD_set_ne c n i false (Nat.ne_of_gt hi')]
          exact h5 i hi'
        · rw [getD_set_self c _ false hclt, hw]
    · -- working true, committed false: flippedIn
      have hin : flippedIn working committed n = true := by
        simp only [flippedIn, hw, hc, Bool.not_false, Bool.true_and, Bool.and_true]
      have hout : flippedOut working committed n = false := by
        simp only [flippedOut, hw, Bool.not_true, Bool.false_and]
      have hnlt : n < working.length := getD_true_lt_length working n hw
      have hclt : n < c.length := by rw [h3, ← hlen]; exact hnlt
      have hcond1 : working.getD n false = true ∧ c.getD n false = false := by
        exact ⟨hw, by rw [hcn, hc]⟩
      rw [hstep, doneStep_eq, if_pos hcond1]
      refine ⟨?_, ?_, by simpa using h3, ?_, ?_⟩
      · rw [List.range_succ, List.filter_append, ← h1]
        simp [List.filter_cons, hin]
      · rw [List.range_succ, List.filter_append, ← h2]
        simp [List.filter_cons, hout]
      · intro i hi
        rw [getD_set_ne c n i true (Nat.ne_of_lt hi)]
        exact h4 i (Nat.le_of_succ_le hi)
      · intro i hi
        rcases Nat.lt_succ_iff_lt_or_eq.mp hi with hi' | rfl
        · rw [getD_set_ne c n i true (Nat.ne_of_gt hi')]
          exact h5 i hi'
        · rw [getD_set_self c _ true hclt, hw]
    · -- both true: no flip
      have hin : flippedIn working committed n = false := by
        simp only [flippedIn, hc, Bool.not_true, Bool.and_false]
      have hout : flippedOut working committed n = false := by
        simp only [flippedOut, hw, Bool.not_true, Bool.false_and]
      have hcond1 : ¬(working.getD n false = true ∧ c.getD n false = false) := by
        rintro ⟨_, h⟩
        rw [hcn, hc] at h
        exact Bool.noConfusion h
      have hcond2 : ¬(working.getD n false = false ∧ c.getD n false = true) := by
        rintro ⟨h, _⟩
        rw [hw] at h
        exact Bool.noConfusion h
      rw [hstep, doneStep_eq, if_neg hcond1, if_neg hcond2]
      refine ⟨?_, ?_, h3, ?_, ?_⟩
      · rw [List.range_succ, List.filter_append, ← h1]
        simp [List.filter_cons, hin]
      · rw [List.range_succ, List.filter_append, ← h2]
        simp [List.filter_cons, hout]
      · intro i hi
        exact h4 i (Nat.le_of_succ_le hi)
      · intro i hi
        rcases Nat.lt_succ_iff_lt_or_eq.mp hi with hi' | rfl
        · exact h5 i hi'
        · rw [hcn, hc, hw]

/-- Boolean flip predicate as a conjunction of equalities. -/
theorem flippedIn_iff (working committed : List Bool) (i : Nat) :
    flippedIn working committed i = true ↔
      working.getD i false = true ∧ committed.getD i false = false := by
  simp [flippedIn, Bool.and_eq_true, Bool.not_eq_true']

/-- Boolean flip predicate as a conjunction of equalities. -/
theorem flippedOut_iff (working committed : List Bool) (i : Nat) :
    flippedOut working committed i = true ↔
      working.getD i false = false ∧ committed.getD i false = true := by
  simp [flippedOut, Bool.and_eq_true, Bool.not_eq_true']


/-- Helper: under the length assumptions, the committed list after the
`done` loop equals the working copy, i.e. every flip has been applied. -/
theorem done_applies_all (working : List Bool) (fs : Frames)
    (hw : working.length = fs.number_original)
    (hc : fs.index_included.length = fs.number_original) :
    (done working fs).2.2.index_included = working := by
  have hlen : working.length = fs.index_included.length := hw.trans hc.symm
  obtain ⟨h1, h2, h3, h4, h5⟩ :=
    doneLoop_invariant working fs.index_included hlen fs.number_original
  show (doneLoop fs.number_original working fs.index_included).2.2 = working
  apply List.ext_getElem
  · rw [h3, hc, hw]
  · intro i hlt1 hlt2
    have hi : i < fs.number_original := by rw [← hw]; exact hlt2
    have hgd := h5 i hi
    rw [List.getD_eq_getElem _ false hlt1, List.getD_eq_getElem _ false hlt2] at hgd
    exact hgd

/-- C1: for every working and committed inclusion array of the same length
`number_original`, `FrameSelectorWidget.done` returns an index list of
false→true flips and an index list of true→false flips, both in ascending
order and disjoint, whose union is exactly the set of indices where the
two arrays differ, and by the end of the call the committed array equals
the working copy (every flip written back, `number_original` and `number`
untouched). -/
theorem done_commit_correct (working : List Bool) (fs : Frames)
    (hw : working.length = fs.number_original)
    (hc : fs.index_included.length = fs.number_original) :
    List.Sorted (· < ·) (done working fs).1 ∧
    List.Sorted (· < ·) (done working fs).2.1 ∧
    (∀ i, i ∈ (done working fs).1 ↔
        (working.getD i false = true ∧ fs.index_included.getD i false = false)) ∧
    (∀ i, i ∈ (done working fs).2.1 ↔
        (working.getD i false = false ∧ fs.index_included.getD i false = true)) ∧
    (∀ i, ¬(i ∈ (done working fs).1 ∧ i ∈ (done working fs).2.1)) ∧
    (∀ i, (i ∈ (done working fs).1 ∨ i ∈ (done working fs).2.1) ↔
        (i < fs.number_original ∧
          working.getD i false ≠ fs.index_included.getD i false)) ∧
    (done working fs).2.2.index_included = working ∧
    (done working fs).2.2.number_original = fs.number_original ∧
    (done working fs).2.2.number = fs.number := by
  have hlen : working.length = fs.index_included.length := hw.trans hc.symm
  obtain ⟨h1, h2, h3, h4, h5⟩ :=
    doneLoop_invariant working fs.index_included hlen fs.number_original
  have hmem1 : ∀ i, i ∈ (done working fs).1 ↔
      (working.getD i false = true ∧ fs.index_included.getD i false = false) := by
    intro i
    show i ∈ (doneLoop fs.number_original working fs.index_included).1 ↔ _
    rw [h1, List.mem_filter, List.mem_range, flippedIn_iff]
    constructor
    · rintro ⟨_, h⟩
      exact h
    · rintro ⟨hwi, hci⟩
      refine ⟨?_, hwi, hci⟩
      rw [← hw]
      exact getD_true_lt_length working i hwi
  have hmem2 : ∀ i, i ∈ (done working fs).2.1 ↔
      (working.getD i false = false ∧ fs.index_included.getD i false = true) := by
    intro i
    show i ∈ (doneLoop fs.number_original working fs.index_included).2.1 ↔ _
    rw [h2, List.mem_filter, List.mem_range, flippedOut_iff]
    constructor
    · rintro ⟨_, h⟩
      exact h
    · rintro ⟨hwi, hci⟩
      refine ⟨?_, hwi, hci⟩
      rw [← hc]
      exact getD_true_lt_length fs.index_included i hci
  refine ⟨?_, ?_, hmem1, hmem2, ?_, ?_, done_applies_all working fs hw hc, rfl, rfl⟩
  · show List.Sorted (· < ·) (doneLoop fs.number_original working fs.index_included).1
    rw [h1]
    exact List.Pairwise.filter _ (List.sorted_lt_range _)
  · show List.Sorted (· < ·) (doneLoop fs.number_original working fs.index_included).2.1
    rw [h2]
    exact List.Pairwise.filter _ (List.sorted_lt_range _)
  · rintro i ⟨hi1, hi2⟩
    rw [hmem1 i] at hi1
    rw [hmem2 i] at hi2
    rw [hi1.1] at hi2
    exact Bool.noConfusion hi2.1
  · intro i
    rw [hmem1 i, hmem2 i]
    constructor
    · rintro (⟨hwi, hci⟩ | ⟨hwi, hci⟩)
      · refine ⟨?_, by rw [hwi, hci]; exact Bool.false_ne_true ∘ Eq.symm⟩
        rw [← hw]
        exact getD_true_lt_length working i hwi
      · refine ⟨?_, by rw [hwi, hci]; exact Bool.false_ne_true⟩
        rw [← hc]
        exact getD_true_lt_length fs.index_included i hci
    · rintro ⟨hi, hne⟩
      rcases hwi : working.getD i false <;>
        rcases hci : fs.index_included.getD i false
      · rw [hwi, hci] at hne
        exact absurd rfl hne
      · exact Or.inr ⟨rfl, rfl⟩
      · exact Or.inl ⟨rfl, rfl⟩
      · rw [hwi, hci] at hne
        exact absurd rfl hne

/-- Witness for C1 at the concrete input `workingW` / `framesW`. -/
theorem done_commit_correct_witness :
    workingW.length = framesW.number_original ∧
    framesW.index_included.length = framesW.number_original ∧
    (List.Sorted (· < ·) (done workingW framesW).1 ∧
     List.Sorted (· < ·) (done workingW framesW).2.1 ∧
     (∀ i, i ∈ (done workingW framesW).1 ↔
         (workingW.getD i false = true ∧
           framesW.index_included.getD i false = false)) ∧
     (∀ i, i ∈ (done workingW framesW).2.1 ↔
         (workingW.getD i false = false ∧
           framesW.index_included.getD i false = true)) ∧
     (∀ i, ¬(i ∈ (done workingW framesW).1 ∧ i ∈ (done workingW framesW).2.1)) ∧
     (∀ i, (i ∈ (done workingW framesW).1 ∨ i ∈ (done workingW framesW).2.1) ↔
         (i < framesW.number_original ∧
           workingW.getD i false ≠ framesW.index_included.getD i false)) ∧
     (done workingW framesW).2.2.index_included = workingW ∧
     (done workingW framesW).2.2.number_original = framesW.number_original ∧
     (done workingW framesW).2.2.number = framesW.number) :=
  ⟨by decide, by decide,
    done_commit_correct workingW framesW (by decide) (by decide)⟩

/-- C3 counterexample: with one committed-included frame and a working copy
that excludes it, the invariant `number = count true` holds before
`done` but fails after it, because `done` rewrites `index_included`
without ever updating `number`. -/
theorem done_number_counterexample :
    framesOne.number = countIncluded framesOne.index_included ∧
    (done [false] framesOne).2.2.number ≠
      countIncluded (done [false] framesOne).2.2.index_included := by
  decide

/-- C3 amended: `done` leaves `FrameSet.number` unchanged, so after the
call the invariant `number = count true` holds exactly when the working
copy has the same number of `true` entries as the pre-commit committed
array (in particular whenever no flip occurred); it is not preserved in
general. -/
theorem done_number_amended (working : List Bool) (fs : Frames)
    (hw : working.length = fs.number_original)
    (hc : fs.index_included.length = fs.number_original)
    (hinv : fs.number = countIncluded fs.index_included) :
    (done working fs).2.2.number = fs.number ∧
    ((done working fs).2.2.number =
        countIncluded (done working fs).2.2.index_included ↔
      countIncluded working = countIncluded fs.index_included) := by
  refine ⟨rfl, ?_⟩
  rw [done_applies_all working fs hw hc]
  show fs.number = countIncluded working ↔ _
  rw [hinv]
  exact eq_comm

/-- Witness for the amended C3 at a concrete input with one flip in each
direction, which keeps the count equal. -/
theorem done_number_amended_witness :
    ([true, false] : List Bool).length = framesW.number_original ∧
    framesW.index_included.length = framesW.number_original ∧
    framesW.number = countIncluded framesW.index_included ∧
    ((done [true, false] framesW).2.2.number = framesW.number ∧
     ((done [true, false] framesW).2.2.number =
         countIncluded (done [true, false] framesW).2.2.index_included ↔
       countIncluded [true, false] = countIncluded framesW.index_included)) :=
  ⟨by decide, by decide, by decide,
    done_number_amended [true, false] framesW (by decide) (by decide) (by decide)⟩

/-- Helper: `setAll` preserves the length of the flag list. -/
theorem length_setAll (ixs : List Nat) (b : Bool) (l : List Bool) :
    (setAll ixs b l).length = l.length := by
  induction ixs generalizing l with
  | nil => rfl
  | cons i ixs ih =>
    show (setAll ixs b (l.set i b)).length = l.length
    rw [ih, List.length_set]

/-- Helper: pointwise description of `setAll` when all written indices are
in range. -/
theorem getD_setAll (ixs : List Nat) (b : Bool) (l : List Bool)
    (hix : ∀ i ∈ ixs, i < l.length) (j : Nat) :
    (setAll ixs b l).getD j false =
      if j ∈ ixs then b else l.getD j false := by
  induction ixs generalizing l with
  | nil => simp [setAll]
  | cons i ixs ih =>
    have hstep : setAll (i :: ixs) b l = setAll ixs b (l.set i b) := rfl
    have hix' : ∀ k ∈ ixs, k < (l.set i b).length := by
      intro k hk
      rw [List.length_set]
      exact hix k (List.mem_cons_of_mem i hk)
    rw [hstep, ih (l.set i b) hix']
    by_cases hj : j ∈ ixs
    · rw [if_pos hj, if_pos (List.mem_cons_of_mem i hj)]
    · by_cases hji : j = i
      · subst hji
        rw [if_neg hj, if_pos (List.mem_cons_self j ixs),
          getD_set_self l j b (hix j (List.mem_cons_self j ixs))]
      · have hnc : j ∉ (i :: ixs) := by
          rw [List.mem_cons]
          rintro (h | h)
          · exact hji h
          · exact hj h
        rw [if_neg hj, if_neg hnc, getD_set_ne l i j b (fun h => hji h.symm)]

/-- Helper: an empty selection makes both batch commands no-ops. -/
theorem batch_empty_noop (w : FrameSelectorWidget)
    (h : w.indices_selected = []) :
    use_triggered w = w ∧ not_use_triggered w = w := by
  constructor <;> simp [use_triggered, not_use_triggered, h]

/-- Helper: pointwise description of one batch command. -/
theorem batch_pointwise (w : FrameSelectorWidget) (b : Bool)
    (hix : ∀ i ∈ w.indices_selected, i < w.index_included.length) (j : Nat) :
    (if b then use_triggered w else not_use_triggered w).index_included.getD
        j false =
      if j ∈ w.indices_selected then b else w.index_included.getD j false := by
  rcases hsel : w.indices_selected with _ | ⟨r, rest⟩
  · cases b <;> simp [use_triggered, not_use_triggered, hsel]
  · rw [hsel] at hix
    cases b
    · show (not_use_triggered w).index_included.getD j false = _
      rw [not_use_triggered, if_neg (by rw [hsel]; exact by simp)]
      show (setAll w.indices_selected false w.index_included).getD j false = _
      rw [hsel, getD_setAll (r :: rest) false w.index_included hix j]
    · show (use_triggered w).index_included.getD j false = _
      rw [use_triggered, if_neg (by rw [hsel]; exact by simp)]
      show (setAll w.indices_selected true w.index_included).getD j false = _
      rw [hsel, getD_setAll (r :: rest) true w.index_included hix j]

/-- Helper: one spec-level batch step is realised exactly by a selection
followed by the corresponding batch command. -/
theorem batch_step_index_included (st : Bool × List Nat)
    (w : FrameSelectorWidget) :
    (applyOp (applyOp w (SessionOp.select st.2))
        (if st.1 then SessionOp.use else SessionOp.notUse)).index_included =
      replaySpecStep w.index_included st := by
  rcases st with ⟨b, rows⟩
  rcases rows with _ | ⟨r, rest⟩
  · cases b <;> rfl
  · cases b <;> rfl

/-- Helper: replaying a batch sequence through the widget computes the
spec-level replay on the working copy. -/
theorem applyOps_batch_replay (steps : List (Bool × List Nat))
    (w : FrameSelectorWidget) :
    (applyOps (batchOps steps) w).index_included =
      replaySpec steps w.index_included := by
  induction steps generalizing w with
  | nil => rfl
  | cons st steps ih =>
    have hexp : batchOps (st :: steps) =
        SessionOp.select st.2 ::
          (if st.1 then SessionOp.use else SessionOp.notUse) :: batchOps steps := by
      simp [batchOps]
    rw [hexp]
    show (applyOps (batchOps steps)
        (applyOp (applyOp w (SessionOp.select st.2))
          (if st.1 then SessionOp.use else SessionOp.notUse))).index_included =
      replaySpec (st :: steps) w.index_included
    rw [ih, batch_step_index_included st w]
    rfl

/-- C2: a sequence of include/exclude batch commands computes exactly the
replay of the operations in order: an empty selection makes either
command a no-op, one command sets every currently selected (in-range)
position to the new flag and leaves every other position unchanged, and a
whole selection/command sequence yields the spec-level replayed flag
array. -/
theorem batch_replay_correct :
    (∀ w : FrameSelectorWidget, w.indices_selected = [] →
        use_triggered w = w ∧ not_use_triggered w = w) ∧
    (∀ (w : FrameSelectorWidget) (b : Bool),
        (∀ i ∈ w.indices_selected, i < w.index_included.length) →
        ∀ j, (if b then use_triggered w
            else not_use_triggered w).index_included.getD j false =
          if j ∈ w.indices_selected then b else w.index_included.getD j false) ∧
    (∀ (steps : List (Bool × List Nat)) (w : FrameSelectorWidget),
        (applyOps (batchOps steps) w).index_included =
          replaySpec steps w.index_included) :=
  ⟨batch_empty_noop, batch_pointwise, applyOps_batch_replay⟩

/-- Witness for C2 at concrete widgets and a concrete two-step batch. -/
theorem batch_replay_correct_witness :
    (use_triggered (initWidget false framesFive) = initWidget false framesFive ∧
      not_use_triggered (initWidget false framesFive) =
        initWidget false framesFive) ∧
    ((if false then use_triggered widgetSel
        else not_use_triggered widgetSel).index_included.getD 1 false =
      if 1 ∈ widgetSel.indices_selected then false
      else widgetSel.index_included.getD 1 false) ∧
    (applyOps (batchOps stepsW) (initWidget false framesFive)).index_included =
      replaySpec stepsW (initWidget false framesFive).index_included :=
  ⟨batch_replay_correct.1 (initWidget false framesFive) rfl,
   batch_replay_correct.2.1 widgetSel false (by decide) 1,
   batch_replay_correct.2.2 stepsW (initWidget false framesFive)⟩

/-- Helper: no session action writes the `frames` field. -/
theorem applyOp_frames (w : FrameSelectorWidget) (op : SessionOp) :
    (applyOp w op).frames = w.frames := by
  cases op with
  | use =>
    show (use_triggered w).frames = w.frames
    rw [use_triggered]
    split <;> rfl
  | notUse =>
    show (not_use_triggered w).frames = w.frames
    rw [not_use_triggered]
    split <;> rfl
  | select rows =>
    cases rows <;> rfl
  | slider value => rfl

/-- Helper: no session sequence writes the `frames` field. -/
theorem applyOps_frames (ops : List SessionOp) (w : FrameSelectorWidget) :
    (applyOps ops w).frames = w.frames := by
  induction ops generalizing w with
  | nil => rfl
  | cons op ops ih =>
    show (applyOps ops (applyOp w op)).frames = w.frames
    rw [ih, applyOp_frames]

/-- Helper: `reject` never writes the `frames` field, whether it raises
or closes. -/
theorem reject_frames (w : FrameSelectorWidget) :
    (reject w).2.frames = w.frames := by
  rw [reject]
  split
  · split <;> rfl
  · rfl

/-- C4: whatever include/exclude/select/slider actions ran during the
session, `reject` leaves the external `FrameSet` exactly as it was at
session start: same object, same `index_included`, same `number`. -/
theorem reject_preserves_frameset (pg : Bool) (fs : Frames)
    (ops : List SessionOp) :
    (applyOps ops (initWidget pg fs)).frames = fs ∧
    (reject (applyOps ops (initWidget pg fs))).2.frames = fs ∧
    (reject (applyOps ops (initWidget pg fs))).2.frames.index_included =
      fs.index_included ∧
    (reject (applyOps ops (initWidget pg fs))).2.frames.number = fs.number := by
  have h1 : (applyOps ops (initWidget pg fs)).frames = fs := by
    rw [applyOps_frames]
    rfl
  have h2 : (reject (applyOps ops (initWidget pg fs))).2.frames = fs := by
    rw [reject_frames, h1]
  exact ⟨h1, h2, by rw [h2], by rw [h2]⟩

/-- C5 counterexample: with the selection list `[2, 0]` (row 2 clicked
first, then row 0), the minimum selected index is 0, yet `select_items`
sets `frame_index` to 2, the first element, not the minimum. -/
theorem select_items_min_counterexample :
    (0 : Nat) ∈ ([2, 0] : List Nat) ∧
    (∀ r ∈ ([2, 0] : List Nat), (0 : Nat) ≤ r) ∧
    (select_items [2, 0] (initWidget false framesFive)).2.frame_index ≠ 0 := by
  decide

/-- C5 amended: a nonempty selection replaces `indices_selected` and sets
`current_index` to the first element of the selection list as delivered
by the list widget (the minimum only when that list is ascending); an
empty selection fails with an index error after the selection has been
replaced, leaving `frame_index` unchanged. -/
theorem select_items_amended (rows : List Nat) (w : FrameSelectorWidget) :
    (∀ r rest, rows = r :: rest →
      (select_items rows w).1 = none ∧
      (select_items rows w).2.indices_selected = rows ∧
      (select_items rows w).2.frame_index = r) ∧
    (rows = [] →
      (select_items rows w).1 = some PyError.indexError ∧
      (select_items rows w).2.indices_selected = [] ∧
      (select_items rows w).2.frame_index = w.frame_index) := by
  constructor
  · rintro r rest rfl
    exact ⟨rfl, rfl, rfl⟩
  · rintro rfl
    exact ⟨rfl, rfl, rfl⟩

/-- Witness for the amended C5 on the selection `[2, 0]`. -/
theorem select_items_amended_witness :
    (select_items [2, 0] (initWidget false framesFive)).1 = none ∧
    (select_items [2, 0] (initWidget false framesFive)).2.indices_selected =
      [2, 0] ∧
    (select_items [2, 0] (initWidget false framesFive)).2.frame_index = 2 :=
  (select_items_amended [2, 0] (initWidget false framesFive)).1 2 [0] rfl

/-- C6: starting `FramePlayer.play` with the cursor already at
`number_original - 1` exits the loop at its first condition check: the
run flag ends `false` and the cursor, the slider and the display-request
list are exactly as before. -/
theorem play_at_last_frame (n fuel : Nat) (busy run : Nat → Bool)
    (s : PlayerState) (hn : 1 ≤ n) (hs : s.frame_index = n - 1) :
    play n busy run fuel s = { s with run_player := false } := by
  cases fuel with
  | zero => rfl
  | succ f =>
    have hcond : ¬(({ s with run_player := true } : PlayerState).frame_index <
        n - 1 ∧ run 0 = true) := by
      rintro ⟨hlt, _⟩
      have hlt' : s.frame_index < n - 1 := hlt
      rw [hs] at hlt'
      exact Nat.lt_irrefl _ hlt'
    show ({ playLoop n busy run (f + 1) 0 { s with run_player := true } with
        run_player := false } : PlayerState) = { s with run_player := false }
    rw [playLoop, if_neg hcond]

/-- Witness for C6: five frames, cursor already at index 4. -/
theorem play_at_last_frame_witness :
    1 ≤ 5 ∧
    ({ playerStart with frame_index := 4 } : PlayerState).frame_index =
      5 - 1 ∧
    play 5 neverBusy alwaysRun 9 { playerStart with frame_index := 4 } =
      { { playerStart with frame_index := 4 } with run_player := false } :=
  ⟨by decide, by decide,
    play_at_last_frame 5 9 neverBusy alwaysRun
      { playerStart with frame_index := 4 } (by decide) (by decide)⟩

/-- C7: with five frames, a never-busy loader and no stop request, the
player started at index 0 requests displays of exactly 1, 2, 3, 4 in this
order, halts with the cursor at 4 (slider at position 5), and never wraps
back to 0. -/
theorem play_runs_to_end :
    play 5 neverBusy alwaysRun 100 playerStart =
      { frame_index := 4, run_player := false, slider_value := 5,
        displays := [1, 2, 3, 4] } := by
  decide

/-- C8: the stop button simply clears the run flag, and as soon as the
loop observes the flag `false` at a condition check it exits with the
state it had at that moment, so no further advancement of the cursor ever
happens after the stop is observed. -/
theorem stop_halts_player (n fuel t : Nat) (busy run : Nat → Bool)
    (s sAny : PlayerState) (hstop : run t = false) :
    (pushbutton_stop_clicked sAny).run_player = false ∧
    playLoop n busy run fuel t s = s := by
  refine ⟨rfl, ?_⟩
  cases fuel with
  | zero => rfl
  | succ f =>
    have hcond : ¬(s.frame_index < n - 1 ∧ run t = true) := by
      rintro ⟨_, hr⟩
      rw [hstop] at hr
      exact Bool.noConfusion hr
    rw [playLoop, if_neg hcond]

/-- Witness for C8: the stop lands before check 2 of a five-frame playback
and the loop returns its pre-check state unchanged. -/
theorem stop_halts_player_witness :
    stopAtTwo 2 = false ∧
    ((pushbutton_stop_clicked playerStart).run_player = false ∧
     playLoop 5 neverBusy stopAtTwo 7 2 ⟨3, true, 4, [1, 2, 3]⟩ =
       ⟨3, true, 4, [1, 2, 3]⟩) :=
  ⟨by decide,
    stop_halts_player 5 7 2 neverBusy stopAtTwo ⟨3, true, 4, [1, 2, 3]⟩
      playerStart (by decide)⟩

/-- Helper: the playback loop never moves the cursor to or beyond
`number_original`. -/
theorem playLoop_frame_lt (n : Nat) (busy run : Nat → Bool) :
    ∀ (fuel t : Nat) (s : PlayerState), s.frame_index < n →
      (playLoop n busy run fuel t s).frame_index < n := by
  intro fuel
  induction fuel with
  | zero =>
    intro t s h
    exact h
  | succ f ih =>
    intro t s h
    rw [playLoop]
    split
    · next hcond =>
      apply ih
      show (playStep (busy t) s).frame_index < n
      rw [playStep]
      split
      · exact h
      · show s.frame_index + 1 < n
        have := hcond.1
        omega
    · exact h

/-- C9: every writer of `current_index` keeps it inside
`[0, number_original - 1]` (the lower bound holds because indices are
naturals): a selection whose rows are valid list rows, a slider value
within the configured range `[1, number]` with
`number ≤ number_original`, and any number of playback-loop iterations
started inside the range. -/
theorem current_index_in_range :
    (∀ (rows : List Nat) (r : Nat) (rest : List Nat)
        (w : FrameSelectorWidget), rows = r :: rest →
        (∀ i ∈ rows, i < w.frames.number_original) →
        (select_items rows w).2.frame_index < w.frames.number_original) ∧
    (∀ (value : Nat) (w : FrameSelectorWidget),
        1 ≤ value → value ≤ w.frames.number →
        w.frames.number ≤ w.frames.number_original →
        (slider_frames_changed value w).frame_index <
          w.frames.number_original) ∧
    (∀ (n : Nat) (busy run : Nat → Bool) (fuel t : Nat) (s : PlayerState),
        s.frame_index < n →
        (playLoop n busy run fuel t s).frame_index < n) := by
  refine ⟨?_, ?_, ?_⟩
  · rintro rows r rest w rfl hin
    show r < w.frames.number_original
    exact hin r (List.mem_cons_self r rest)
  · intro v w h1 h2 h3
    show v - 1 < w.frames.number_original
    omega
  · intro n busy run fuel t s h
    exact playLoop_frame_lt n busy run fuel t s h

/-- Witness for C9 on concrete selection, slider and playback inputs. -/
theorem current_index_in_range_witness :
    ((select_items [2, 0] (initWidget false framesFive)).2.frame_index <
      (initWidget false framesFive).frames.number_original) ∧
    ((slider_frames_changed 3 (initWidget false framesFive)).frame_index <
      (initWidget false framesFive).frames.number_original) ∧
    ((playLoop 5 neverBusy alwaysRun 9 0 playerStart).frame_index < 5) :=
  ⟨current_index_in_range.1 [2, 0] 2 [0] (initWidget false framesFive) rfl
      (by decide),
   current_index_in_range.2.1 3 (initWidget false framesFive) (by decide)
      (by decide) (by decide),
   current_index_in_range.2.2 5 neverBusy alwaysRun 9 0 playerStart
      (by decide)⟩

/-- C10: whenever `reject` runs with a parent GUI present, it reads
`self.signal_payload`, an attribute no statement of the file ever
assigns, so the call raises `AttributeError` and returns with the widget
state (in particular the window) untouched. -/
theorem reject_raises_attribute_error (w : FrameSelectorWidget)
    (hpg : w.parent_gui_present = true) :
    (reject w).1 = some PyError.attributeError ∧ (reject w).2 = w := by
  rw [reject, if_pos hpg, if_neg (by decide)]
  exact ⟨rfl, rfl⟩

/-- Witness for C10 on a freshly opened widget with a parent GUI. -/
theorem reject_raises_attribute_error_witness :
    (initWidget true framesOne).parent_gui_present = true ∧
    ((reject (initWidget true framesOne)).1 = some PyError.attributeError ∧
     (reject (initWidget true framesOne)).2 = initWidget true framesOne) :=
  ⟨rfl, reject_raises_attribute_error (initWidget true framesOne) rfl⟩

end FrameSelector
